import Mathlib

/-!
Shallow embedding of the obspy/vcr record-replay engine (src/vcr/core.py and
src/vcr/utils.py), together with theorems settling the specification claims.

Python values that can appear as intercepted-call arguments, keyword
arguments and recorded results are modelled by the inductive `Value`;
byte strings are lists of naturals; keyword-argument dicts are association
lists.  Machine behaviour (SHA-256) is implemented over naturals with
explicit reduction modulo 2^32.
-/

namespace VCR

/-- A Python value as it occurs in recorded traffic: byte strings, text
strings, integers, `None`, booleans, an exception object captured as a
result, or a reference (index into an explicit store) to a `BytesIO`
buffer standing in for a non-serializable stream. -/
inductive Value where
  | bytes : List Nat → Value
  | str : String → Value
  | int : Int → Value
  | none : Value
  | bool : Bool → Value
  | exc : String → Value
  | bio : Nat → Value
  deriving DecidableEq, Repr

/-- Positional arguments of an intercepted call. -/
abbrev Args := List Value

/-- Keyword arguments of an intercepted call (a Python dict, modelled as an
association list). -/
abbrev Kwargs := List (String × Value)

/-- One entry of the playlist: `(name, args, kwargs, value)` as appended by
`VCRSocket._exec` / `vcr_getaddrinfo` (core.py lines 404, 408, 269). -/
structure OpRecord where
  name : String
  args : Args
  kwargs : Kwargs
  value : Value
  deriving DecidableEq, Repr

/-- A normalization function, as documented for
`VCRSystem.outgoing_check_normalizations`: takes `name, args, kwargs` and
returns a possibly modified triple. -/
abbrev NormFunc := String × Args × Kwargs → String × Args × Kwargs

/-- The process-wide configuration attributes of class `VCRSystem`
(core.py lines 127-137). -/
structure Config where
  debug : Bool
  disabled : Bool
  overwrite : Bool
  playback_only : Bool
  raise_if_not_needed : Bool
  raise_if_source_code_changed : Bool
  raise_outgoing_mismatch : Bool
  outgoing_check_normalizations : List NormFunc
  recv_timeout : Nat
  recv_endmarkers : List (List Nat)
  recv_size : Option Nat

/-- The class-attribute defaults of `VCRSystem` (core.py lines 127-137). -/
def defaultConfig : Config :=
  { debug := false
    disabled := false
    overwrite := false
    playback_only := false
    raise_if_not_needed := false
    raise_if_source_code_changed := true
    raise_outgoing_mismatch := true
    outgoing_check_normalizations := []
    recv_timeout := 5
    recv_endmarkers := []
    recv_size := Option.none }

/-- `VCRSystem.reset` (core.py lines 155-167): restores exactly the eight
attributes listed there; the three `raise_*` attributes are not touched. -/
def VCRSystem_reset (c : Config) : Config :=
  { c with
    debug := false
    disabled := false
    overwrite := false
    playback_only := false
    recv_timeout := 5
    recv_endmarkers := []
    recv_size := Option.none
    outgoing_check_normalizations := [] }

/-- Errors raised by the engine during a run. `outgoingMismatch` carries the
expected and the actual (already normalized) triples, as the message built
at core.py lines 257-259 does. -/
inductive VCRError where
  | tapeExhausted
  | outgoingMismatch (expected got : String × Args × Kwargs)
  | sourceCodeChanged
  | missingTape
  deriving DecidableEq, Repr

/-- Apply every normalization function in configured order to a
`(name, args, kwargs)` triple (the loop at core.py lines 246-250). -/
def applyNorms (fs : List NormFunc) (t : String × Args × Kwargs) :
    String × Args × Kwargs :=
  fs.foldl (fun acc f => f acc) t

/-- Is the head byte-string of `l` a prefix / suffix test helper:
`bs` starts with `pre`. -/
def bytesStartsWith (bs pre : List Nat) : Bool :=
  decide (pre <+: bs)

/-- `bs` ends with `suf`. -/
def bytesEndsWith (bs suf : List Nat) : Bool :=
  decide (suf <:+ bs)

/-- The bytes `b'POST '`. -/
def httpPostMark : List Nat := [0x50, 0x4f, 0x53, 0x54, 0x20]

/-- The bytes `b'\r\n\r\n'`. -/
def crlfcrlf : List Nat := [13, 10, 13, 10]

/-- The guard of the HTTP-POST split-send coalescing heuristic of
`VCRSystem.replay_next` (core.py lines 230-238): the live call is a
one-argument `sendall` of a byte string starting with `b'POST '` that does
not end in `b'\r\n\r\n'`, the expected first argument ends in
`b'\r\n\r\n'`, the playlist is non-empty, and its head is a one-argument
`sendall` with the same kwargs as the live call. -/
def coalesceFires (name_got : String) (args_got : Args) (args_expected : Args)
    (rest : List OpRecord) (kwargs_got : Kwargs) : Bool :=
  match rest with
  | [] => false
  | nxt :: _ =>
    name_got == "sendall" &&
    (match args_got, args_expected with
     | [Value.bytes g], Value.bytes e :: _ =>
       bytesStartsWith g httpPostMark && bytesEndsWith e crlfcrlf &&
         !bytesEndsWith g crlfcrlf
     | _, _ => false) &&
    (nxt.name == "sendall" && nxt.args.length == 1 &&
      decide (nxt.kwargs = kwargs_got))

/-- Concatenate the two split payloads:
`args_expected = tuple([args_expected[0] + _next_args[0]])`
(core.py lines 239-240).  Under the guard both heads are byte strings; the
fallback arm is unreachable when the guard holds. -/
def coalesceArgs (args_expected next_args : Args) : Args :=
  match args_expected, next_args with
  | Value.bytes e :: _, Value.bytes n :: _ => [Value.bytes (e ++ n)]
  | _, _ => args_expected

/-- `VCRSystem.replay_next` (core.py lines 211-262).  Returns the call's
outcome together with the playlist left behind:
* pop the head; an empty playlist raises (modelled as `tapeExhausted`);
* on Python < 3.5, a live `makefile` matched against a recorded `sendall`
  pops a second record (lines 216-219);
* when `raise_outgoing_mismatch` is set and the live name is neither
  `recv` nor `makefile`: optionally coalesce a split POST send
  (lines 230-241), apply every normalization function to both triples
  (lines 246-250), and on inequality clear the playlist and raise
  `outgoingMismatch` carrying both normalized triples (lines 255-261);
* otherwise return the recorded value unchanged. -/
def replay_next (cfg : Config) (pyLt35 : Bool) (playlist : List OpRecord)
    (name_got : String) (args_got : Args) (kwargs_got : Kwargs) :
    Except VCRError Value × List OpRecord :=
  match playlist with
  | [] => (Except.error VCRError.tapeExhausted, [])
  | r0 :: rest0 =>
    let pops : Option (OpRecord × List OpRecord) :=
      if pyLt35 && name_got == "makefile" && r0.name == "sendall" then
        match rest0 with
        | [] => Option.none
        | r1 :: rest1 => some (r1, rest1)
      else some (r0, rest0)
    match pops with
    | Option.none => (Except.error VCRError.tapeExhausted, [])
    | some (r, rest) =>
      if cfg.raise_outgoing_mismatch &&
          !(name_got == "recv" || name_got == "makefile") then
        let step : Args × List OpRecord :=
          if coalesceFires name_got args_got r.args rest kwargs_got then
            match rest with
            | nxt :: rest2 => (coalesceArgs r.args nxt.args, rest2)
            | [] => (r.args, [])
          else (r.args, rest)
        let got := applyNorms cfg.outgoing_check_normalizations
          (name_got, args_got, kwargs_got)
        let expected := applyNorms cfg.outgoing_check_normalizations
          (r.name, step.1, r.kwargs)
        if expected ≠ got then
          (Except.error (VCRError.outgoingMismatch expected got), [])
        else
          (Except.ok r.value, step.2)
      else
        (Except.ok r.value, rest)

/-! ## Session state: `VCRSystem.start` / `VCRSystem.stop` (core.py 169-201) -/

/-- Numeric mode constant `VCR_RECORD = 0` (core.py line 43). -/
def VCR_RECORD : Nat := 0

/-- Numeric mode constant `VCR_PLAYBACK = 1` (core.py line 44). -/
def VCR_PLAYBACK : Nat := 1

/-- The mutable class-level session state of `VCRSystem`: the `playlist`
and `status` attributes, plus whether the module-level monkey patches
(socket.socket etc., core.py lines 179-186 / 191-198) are installed. -/
structure SysState where
  playlist : List OpRecord
  status : Nat
  patched : Bool
  deriving DecidableEq, Repr

/-- `VCRSystem.clear_playlist` (core.py lines 169-171). -/
def clear_playlist (s : SysState) : SysState :=
  { s with playlist := [] }

/-- `VCRSystem.start` (core.py lines 173-186): clear the playlist, set the
status to `VCR_RECORD`, then apply the monkey patches. -/
def VCRSystem_start (s : SysState) : SysState :=
  let s := clear_playlist s
  let s := { s with status := VCR_RECORD }
  { s with patched := true }

/-- `VCRSystem.stop` (core.py lines 188-201): revert the monkey patches,
clear the playlist, set the status back to `VCR_RECORD`. -/
def VCRSystem_stop (s : SysState) : SysState :=
  let s := { s with patched := false }
  let s := clear_playlist s
  { s with status := VCR_RECORD }

/-! ## The connection proxy in recording mode (core.py 331-499, 265-276)

`VCRSocket._exec` performs the named call on the real socket, appends
`(name, args, kwargs, copy.copy(value))` to the playlist and returns the
real value (lines 350-409; the streaming branch is modelled separately
below).  The methods `setsockopt`, `settimeout` and `setblocking`
(lines 439-466) call the real socket directly and append nothing; `close`
(448-451) and `fileno` (424-431) likewise never touch the playlist.  The
real socket is an oracle here: the result the real call would produce is
passed in as `realValue`. -/

/-- The capability surface of the proxy: `VCRSocket` methods,
`VCRSSLSocket.getpeercert`, and the module-level `vcr_getaddrinfo`. -/
inductive SockMethod where
  | connect | send | sendall | recv | makefile | getsockopt | gettimeout
  | settimeout | setsockopt | setblocking | close | detach | fileno
  | getpeercert | getaddrinfo
  deriving DecidableEq, Repr

/-- The Python-level operation name of each method. -/
def methodName : SockMethod → String
  | .connect => "connect"
  | .send => "send"
  | .sendall => "sendall"
  | .recv => "recv"
  | .makefile => "makefile"
  | .getsockopt => "getsockopt"
  | .gettimeout => "gettimeout"
  | .settimeout => "settimeout"
  | .setsockopt => "setsockopt"
  | .setblocking => "setblocking"
  | .close => "close"
  | .detach => "detach"
  | .fileno => "fileno"
  | .getpeercert => "getpeercert"
  | .getaddrinfo => "getaddrinfo"

/-- Does a recording-mode call of this method go through `_exec` (or, for
`getaddrinfo`, through the recording branch of `vcr_getaddrinfo`), and is
it therefore appended to the playlist?  Read off the method bodies at
core.py lines 418-499 and 265-276. -/
def methodRecords : SockMethod → Bool
  | .connect | .send | .sendall | .recv | .makefile | .getsockopt
  | .gettimeout | .detach | .getpeercert | .getaddrinfo => true
  | .settimeout | .setsockopt | .setblocking | .close | .fileno => false

/-- One recording-mode call on the proxy, for a non-streaming real result:
returns the new playlist and the value handed back to the caller.  Every
method performs the real call (whose result is `realValue`); only the
`_exec`-routed ones append a record (`copy.copy` of a plain picklable
value is the value itself in this pure model). -/
def socketCallRecording (playlist : List OpRecord) (m : SockMethod)
    (args : Args) (kwargs : Kwargs) (realValue : Value) :
    List OpRecord × Value :=
  if methodRecords m then
    (playlist ++ [⟨methodName m, args, kwargs, realValue⟩], realValue)
  else
    (playlist, realValue)

/-- A call descriptor for a sequence of recording-mode calls. -/
structure CallDesc where
  method : SockMethod
  args : Args
  kwargs : Kwargs
  realValue : Value

/-- The operation record a call leaves on the playlist, if any. -/
def recordOf (c : CallDesc) : Option OpRecord :=
  if methodRecords c.method then
    some ⟨methodName c.method, c.args, c.kwargs, c.realValue⟩
  else Option.none

/-- Run a list of recording-mode calls in order, threading the playlist. -/
def runRecording (playlist : List OpRecord) : List CallDesc → List OpRecord
  | [] => playlist
  | c :: cs =>
    runRecording
      (socketCallRecording playlist c.method c.args c.kwargs c.realValue).1 cs

/-! ## SHA-256 over byte lists (the hash used by `hashlib.sha256` in
`get_source_code_sha256`, utils.py lines 63-79).  Words are naturals
reduced modulo `2^32` explicitly. -/

/-- `2^32`. -/
def M32 : Nat := 4294967296

/-- 32-bit right rotation. -/
def rotr32 (n x : Nat) : Nat :=
  ((x >>> n) ||| (x <<< (32 - n))) % M32

/-- SHA-256 small sigma 0. -/
def ssig0 (x : Nat) : Nat := rotr32 7 x ^^^ rotr32 18 x ^^^ (x >>> 3)

/-- SHA-256 small sigma 1. -/
def ssig1 (x : Nat) : Nat := rotr32 17 x ^^^ rotr32 19 x ^^^ (x >>> 10)

/-- SHA-256 big Sigma 0. -/
def bsig0 (x : Nat) : Nat := rotr32 2 x ^^^ rotr32 13 x ^^^ rotr32 22 x

/-- SHA-256 big Sigma 1. -/
def bsig1 (x : Nat) : Nat := rotr32 6 x ^^^ rotr32 11 x ^^^ rotr32 25 x

/-- SHA-256 choice function (`¬x` is complement in 32 bits). -/
def ch32 (x y z : Nat) : Nat := (x &&& y) ^^^ ((x ^^^ (M32 - 1)) &&& z)

/-- SHA-256 majority function. -/
def maj32 (x y z : Nat) : Nat := (x &&& y) ^^^ (x &&& z) ^^^ (y &&& z)

/-- The 64 SHA-256 round constants (FIPS 180-4, written in decimal). -/
def K256 : List Nat :=
  [1116352408, 1899447441, 3049323471, 3921009573, 961987163,
   1508970993, 2453635748, 2870763221, 3624381080, 310598401,
   607225278, 1426881987, 1925078388, 2162078206, 2614888103,
   3248222580, 3835390401, 4022224774, 264347078, 604807628,
   770255983, 1249150122, 1555081692, 1996064986, 2554220882,
   2821834349, 2952996808, 3210313671, 3336571891, 3584528711,
   113926993, 338241895, 666307205, 773529912, 1294757372,
   1396182291, 1695183700, 1986661051, 2177026350, 2456956037,
   2730485921, 2820302411, 3259730800, 3345764771, 3516065817,
   3600352804, 4094571909, 275423344, 430227734, 506948616,
   659060556, 883997877, 958139571, 1322822218, 1537002063,
   1747873779, 1955562222, 2024104815, 2227730452, 2361852424,
   2428436474, 2756734187, 3204031479, 3329325298]

/-- The initial SHA-256 hash state (FIPS 180-4, written in decimal). -/
def H256init : List Nat :=
  [1779033703, 3144134277, 1013904242, 2773480762,
   1359893119, 2600822924, 528734635, 1541459225]

/-- Big-endian encoding of `v` into `n` bytes. -/
def toBytesBE (n v : Nat) : List Nat :=
  (List.range n).map (fun i => v / 256 ^ (n - 1 - i) % 256)

/-- SHA-256 padding: append `0x80`, zero bytes up to 56 mod 64, then the
bit length in 8 big-endian bytes. -/
def sha256pad (msg : List Nat) : List Nat :=
  let padZeros := (119 - msg.length % 64) % 64
  msg ++ 0x80 :: List.replicate padZeros 0 ++ toBytesBE 8 (8 * msg.length)

/-- Split a byte list into 64-byte chunks (structural recursion on a fuel
bound so the kernel can evaluate it; `fuel = l.length` suffices since
every step consumes at least one byte). -/
def chunks64Go : Nat → List Nat → List (List Nat)
  | 0, _ => []
  | _, [] => []
  | fuel + 1, l => l.take 64 :: chunks64Go fuel (l.drop 64)

/-- Split a byte list into 64-byte chunks. -/
def chunks64 (l : List Nat) : List (List Nat) :=
  chunks64Go l.length l

/-- Group a byte list into big-endian 32-bit words. -/
def words32 : List Nat → List Nat
  | b0 :: b1 :: b2 :: b3 :: rest =>
    (((b0 * 256 + b1) * 256 + b2) * 256 + b3) :: words32 rest
  | _ => []

/-- Extend the 16 chunk words to the 64-entry message schedule. -/
def schedule (w : Array Nat) : Array Nat :=
  (List.range 48).foldl
    (fun w _ =>
      let t := w.size
      let s0 := ssig0 (w[t - 15]!)
      let s1 := ssig1 (w[t - 2]!)
      w.push ((w[t - 16]! + s0 + w[t - 7]! + s1) % M32))
    w

/-- One SHA-256 compression round over a 64-byte chunk, given as its list
of 16 words. -/
def compressChunk (h : List Nat) (chunkWords : List Nat) : List Nat :=
  let w := schedule chunkWords.toArray
  let kw := K256.zip w.toList
  match h with
  | [a0, b0, c0, d0, e0, f0, g0, h0] =>
    let fin := kw.foldl
      (fun s kwp =>
        match s with
        | (a, b, c, d, e, f, g, hh) =>
          let t1 := (hh + bsig1 e + ch32 e f g + kwp.1 + kwp.2) % M32
          let t2 := (bsig0 a + maj32 a b c) % M32
          ((t1 + t2) % M32, a, b, c, (d + t1) % M32, e, f, g))
      (a0, b0, c0, d0, e0, f0, g0, h0)
    match fin with
    | (a, b, c, d, e, f, g, hh) =>
      [(a0 + a) % M32, (b0 + b) % M32, (c0 + c) % M32, (d0 + d) % M32,
       (e0 + e) % M32, (f0 + f) % M32, (g0 + g) % M32, (h0 + hh) % M32]
  | _ => h

/-- Lower-case hex digit. -/
def hexDigit (n : Nat) : Char :=
  if n < 10 then Char.ofNat (48 + n) else Char.ofNat (87 + n)

/-- A 32-bit word as 8 lower-case hex characters. -/
def word32Hex (x : Nat) : List Char :=
  (List.range 8).map (fun i => hexDigit (x / 16 ^ (7 - i) % 16))

/-- SHA-256 of a byte list, as the lower-case hex digest string
(`hashlib.sha256(...).hexdigest()`). -/
def sha256hex (msg : List Nat) : String :=
  let hs := (chunks64 (sha256pad msg)).map words32 |>.foldl compressChunk
    H256init
  String.mk ((hs.map word32Hex).flatten)

/-- UTF-8 encoding of one character (code point to 1-4 bytes). -/
def utf8EncodeChar (c : Char) : List Nat :=
  let n := c.toNat
  if n < 0x80 then [n]
  else if n < 0x800 then [0xC0 + n / 64, 0x80 + n % 64]
  else if n < 0x10000 then
    [0xE0 + n / 4096, 0x80 + n / 64 % 64, 0x80 + n % 64]
  else
    [0xF0 + n / 262144, 0x80 + n / 4096 % 64, 0x80 + n / 64 % 64,
     0x80 + n % 64]

/-- UTF-8 encoding of a string (`source_code.encode('UTF-8')`). -/
def utf8Encode (s : String) : List Nat :=
  (s.data.map utf8EncodeChar).flatten

/-- `get_source_code_sha256` (utils.py lines 63-79), unittest branch: the
source lines of the test function (each line keeping its newline, as
`inspect.getsourcelines` yields them), whose first line is the `@vcr`
decorator line, are joined after dropping that first line, encoded as
UTF-8 and hashed with SHA-256 to a hex digest. -/
def get_source_code_sha256 (sourceLines : List String) : String :=
  sha256hex (utf8Encode (String.join (sourceLines.drop 1)))

/-! ## `_vcr_inner` (core.py lines 523-645): mode selection and the
pre-body playback checks.  The real socket traffic of the test body and
the persistence layer are abstracted away; the function reports which mode
was chosen, whether the interception (monkey patches) was installed while
the body ran, whether the body ran at all, and which error (if any) was
raised before the body. -/

/-- The run mode a `_vcr_inner` invocation ends up in. -/
inductive Mode where
  | bypass | recording | playing
  deriving DecidableEq, Repr

/-- Observable outcome of the pre-body part of one `_vcr_inner` run. -/
structure RunOutcome where
  mode : Mode
  installed : Bool
  bodyExecuted : Bool
  error : Option VCRError
  deriving DecidableEq, Repr

/-- `_vcr_inner` control flow up to the execution of the decorated test
body (core.py lines 527-643):
* `disabled or VCRSystem.disabled` runs the body with no interception
  (lines 527-529, before the `with VCRSystem(...)` install);
* otherwise, when playback is not forced and (the tape file is missing or
  an overwrite is forced), recording mode is entered (lines 575-612); on
  Python 2 recording is skipped: VCR is stopped again and the body runs
  uninstrumented (lines 579-587);
* otherwise playback mode: a missing tape file raises `IOError`
  (lines 619-621) before the body; then the leading fingerprint
  `storedFp` is popped and, when `raise_if_source_code_changed` is set,
  compared against the freshly computed source hash, raising
  `VCRPlaybackSourceCodeChangedError` on inequality (lines 631-639)
  before the body runs (line 643). -/
def vcrInner (py2 : Bool) (decDisabled decOverwrite decPlaybackOnly : Bool)
    (cfg : Config) (tapeExists : Bool) (storedFp : String)
    (sourceLines : List String) : RunOutcome :=
  if decDisabled || cfg.disabled then
    ⟨Mode.bypass, false, true, Option.none⟩
  else if !(decPlaybackOnly || cfg.playback_only) &&
      (!tapeExists || decOverwrite || cfg.overwrite) then
    if py2 then ⟨Mode.recording, false, true, Option.none⟩
    else ⟨Mode.recording, true, true, Option.none⟩
  else if !tapeExists then
    ⟨Mode.playing, true, false, some VCRError.missingTape⟩
  else if cfg.raise_if_source_code_changed &&
      !(get_source_code_sha256 sourceLines == storedFp) then
    ⟨Mode.playing, true, false, some VCRError.sourceCodeChanged⟩
  else
    ⟨Mode.playing, true, true, Option.none⟩

/-! ## The bounded-time streaming capture loop of `VCRSocket._exec`
(core.py lines 356-406)

The loop reads from the real stream into a `BytesIO` buffer.  Time is
modelled by tagging each iteration with the wall-clock instant `now`
observed at its top (`time.time()`), and the data the stream yields that
iteration; times along a trace are the environment's choice.  Within an
iteration the code reads the clock up to three times; those reads are a
fraction of a second apart, collapsed here to the single `now`.

Faithfulness notes, visible in the source:
* the end-marker `for` loop (lines 397-400) contains a `break` that exits
  only that inner `for` loop — it never leaves the `while` loop, so an
  observed end marker has no effect on the iteration's outcome;
* with `recv_size` set (an `int` per the class docstring), line 384
  evaluates `len(VCRSystem.recv_size)`, which raises `TypeError`; only
  `socket.error` is caught (line 401), so the loop (and `_exec`) is torn
  down by an uncaught exception, modelled as `typeErrorCrash`. -/

/-- What the stream yields in one iteration's read: some bytes (possibly
none available, `data = b''`), or a `socket.error`. -/
inductive ReadEvent where
  | data (bytes : List Nat)
  | sockErr
  deriving DecidableEq, Repr

/-- One loop iteration as seen by the environment: the clock value at the
iteration's top and the read outcome. -/
structure CapEvent where
  now : Nat
  read : ReadEvent
  deriving DecidableEq, Repr

/-- Why the capture loop stopped. -/
inductive BreakReason where
  | dataTimeout
  | noDataTimeout
  | sockError
  | typeErrorCrash
  deriving DecidableEq, Repr

/-- One iteration of the `while True` loop (core.py lines 372-402), for
buffer contents `temp` and last-progress instant `begin_`:
* some data already collected and more than `recv_timeout` elapsed since
  `begin_` → break (lines 374-377);
* more than `2 * recv_timeout` elapsed → break (lines 378-380);
* `recv_size` set → `len(int)` raises `TypeError` (line 384), uncaught;
* otherwise read: a `socket.error` breaks (lines 401-402); non-empty data
  is appended and resets `begin_` to the current instant (lines 388-390);
  empty data only sleeps (line 392).  The end-marker scan (lines 397-400)
  changes nothing either way. -/
def captureStep (cfg : Config) (begin_ : Nat) (temp : List Nat)
    (e : CapEvent) : (BreakReason × List Nat) ⊕ (Nat × List Nat) :=
  if temp ≠ [] ∧ e.now - begin_ > cfg.recv_timeout then
    Sum.inl (BreakReason.dataTimeout, temp)
  else if e.now - begin_ > cfg.recv_timeout * 2 then
    Sum.inl (BreakReason.noDataTimeout, temp)
  else
    match cfg.recv_size with
    | some _ => Sum.inl (BreakReason.typeErrorCrash, temp)
    | Option.none =>
      match e.read with
      | ReadEvent.sockErr => Sum.inl (BreakReason.sockError, temp)
      | ReadEvent.data [] => Sum.inr (begin_, temp)
      | ReadEvent.data bs => Sum.inr (e.now, temp ++ bs)

/-- The capture loop run against a trace of iteration events; `none` means
the trace ended before the loop broke. -/
def captureLoop (cfg : Config) (begin_ : Nat) (temp : List Nat) :
    List CapEvent → Option (BreakReason × List Nat)
  | [] => Option.none
  | e :: es =>
    match captureStep cfg begin_ temp e with
    | Sum.inl r => some r
    | Sum.inr (b, t) => captureLoop cfg b t es

/-! ## The stream hand-off after the capture loop (core.py lines 403-406)
and a `BytesIO` store

`temp.seek(0)` rewinds the buffer, the buffer object itself is appended to
the playlist as the record's result, and `copy.copy(temp)` — a fresh
`BytesIO` holding the same contents and position — is returned to the
caller.  Object identity and mutation are made explicit through a store of
buffers addressed by index. -/

/-- A `BytesIO` object: contents, read position, closed flag. -/
structure BytesIOObj where
  data : List Nat
  pos : Nat
  closed : Bool
  deriving DecidableEq, Repr

/-- The heap of live `BytesIO` objects; a buffer reference is an index. -/
abbrev BIOStore := List BytesIOObj

/-- `temp.seek(0); playlist.append((name, args, kwargs, temp));
return copy.copy(temp)` (core.py lines 403-406): allocate the rewound
buffer and an independent copy with equal contents, append a record
referring to the former, return a reference to the latter. -/
def finalizeStream (store : BIOStore) (playlist : List OpRecord)
    (name : String) (args : Args) (kwargs : Kwargs) (temp : BytesIOObj) :
    BIOStore × List OpRecord × Nat × Nat :=
  let rewound : BytesIOObj := { temp with pos := 0 }
  let recordedId := store.length
  let returnedId := store.length + 1
  (store ++ [rewound, rewound],
   playlist ++ [⟨name, args, kwargs, Value.bio recordedId⟩],
   recordedId, returnedId)

/-- A caller-side operation on a `BytesIO` reference. -/
inductive BIOOp where
  | read (n : Nat)
  | close
  deriving DecidableEq, Repr

/-- Apply one operation to the buffer at index `i` (reading advances the
position, closing sets the flag); other buffers are untouched. -/
def bioApply (store : BIOStore) (i : Nat) (op : BIOOp) : BIOStore :=
  match store[i]? with
  | Option.none => store
  | some b =>
    match op with
    | BIOOp.read n =>
      store.set i { b with pos := min (b.pos + n) b.data.length }
    | BIOOp.close => store.set i { b with closed := true }

/-- Apply a sequence of caller operations at index `i`. -/
def bioApplyAll (store : BIOStore) (i : Nat) : List BIOOp → BIOStore
  | [] => store
  | op :: ops => bioApplyAll (bioApply store i op) i ops

/-! ## Theorems -/

/-- C10: immediately after `VCRSystem.start` and immediately after
`VCRSystem.stop`, the playlist is empty and the status equals
`VCR_RECORD`, for every prior session state: no residual recorded or
unconsumed operation records survive session setup or teardown. -/
theorem start_stop_leave_clean_state (s : SysState) :
    (VCRSystem_start s).playlist = [] ∧
    (VCRSystem_start s).status = VCR_RECORD ∧
    (VCRSystem_stop s).playlist = [] ∧
    (VCRSystem_stop s).status = VCR_RECORD := by
  refine ⟨rfl, rfl, rfl, rfl⟩

/-- C8 counterexample: `VCRSystem.reset` does not restore
`raise_outgoing_mismatch`; starting from the defaults with that flag
cleared, it is still `false` after `reset`, although its documented
default is `true`. -/
theorem reset_leaves_mismatch_flag_cleared :
    (VCRSystem_reset
      { defaultConfig with raise_outgoing_mismatch := false
                         }).raise_outgoing_mismatch = false := rfl

/-- C8 amended: `VCRSystem.reset` restores `debug`, `disabled`,
`overwrite`, `playback_only`, `recv_timeout`, `recv_endmarkers`,
`recv_size` and `outgoing_check_normalizations` to their documented
defaults, leaves `raise_if_not_needed`, `raise_if_source_code_changed` and
`raise_outgoing_mismatch` untouched, and hence yields the full default
configuration exactly when those three flags already held their
defaults. -/
theorem reset_restores_defaults (c : Config) :
    (VCRSystem_reset c).debug = false ∧
    (VCRSystem_reset c).disabled = false ∧
    (VCRSystem_reset c).overwrite = false ∧
    (VCRSystem_reset c).playback_only = false ∧
    (VCRSystem_reset c).recv_timeout = 5 ∧
    (VCRSystem_reset c).recv_endmarkers = [] ∧
    (VCRSystem_reset c).recv_size = Option.none ∧
    (VCRSystem_reset c).outgoing_check_normalizations = [] ∧
    (VCRSystem_reset c).raise_if_not_needed = c.raise_if_not_needed ∧
    (VCRSystem_reset c).raise_if_source_code_changed
      = c.raise_if_source_code_changed ∧
    (VCRSystem_reset c).raise_outgoing_mismatch
      = c.raise_outgoing_mismatch ∧
    (VCRSystem_reset c = defaultConfig ↔
      (c.raise_if_not_needed = false ∧
       c.raise_if_source_code_changed = true ∧
       c.raise_outgoing_mismatch = true)) := by
  obtain ⟨dbg, dis, ow, pb, rin, rsc, rom, norms, rt, rem, rs⟩ := c
  simp [VCRSystem_reset, defaultConfig, Config.mk.injEq, and_assoc]

/-- C3: with an empty playlist, `replay_next` fails with the
tape-exhausted error (Python: `list.pop` raises `IndexError`) no matter
which live call arrives and no matter how every configuration flag is set
— in particular neither `raise_outgoing_mismatch` nor
`raise_if_source_code_changed` can demote it. -/
theorem empty_playlist_always_tape_exhausted (cfg : Config) (pyLt35 : Bool)
    (name : String) (args : Args) (kwargs : Kwargs) :
    replay_next cfg pyLt35 [] name args kwargs
      = (Except.error VCRError.tapeExhausted, []) := rfl

/-- C4 counterexample: a recorded result standing for a captured exception
is handed back by `replay_next` as an ordinary `Except.ok` value — it is
not re-raised (the `Except.error` side, the embedding of a raise, is not
taken): `return value_` at core.py line 262 has no special case for
exception objects. -/
theorem captured_exception_returned_not_reraised :
    replay_next defaultConfig false
        [⟨"recv", [], [], Value.exc "boom"⟩] "recv" [] []
      = (Except.ok (Value.exc "boom"), []) := rfl

/-- C4 amended: whenever the comparison succeeds, or mismatch checking is
disabled, or the call is the pure read `recv`, `replay_next` returns the
recorded result value unchanged — including a result that represents a
captured exception, which is returned as a value rather than re-raised. -/
theorem replay_returns_result_unchanged (cfg : Config) (pyLt35 : Bool)
    (r : OpRecord) (rest : List OpRecord) (name : String) (args : Args)
    (kwargs : Kwargs) (hmf : name ≠ "makefile")
    (h : cfg.raise_outgoing_mismatch = false ∨ name = "recv" ∨
      (coalesceFires name args r.args rest kwargs = false ∧
        applyNorms cfg.outgoing_check_normalizations (r.name, r.args, r.kwargs)
          = applyNorms cfg.outgoing_check_normalizations
              (name, args, kwargs))) :
    replay_next cfg pyLt35 (r :: rest) name args kwargs
      = (Except.ok r.value, rest) := by
  have hbmf : (name == "makefile") = false := by
    simpa using hmf
  rcases h with hoff | hrecv | ⟨hco, heq⟩
  · simp [replay_next, hbmf, hoff]
  · subst hrecv
    simp [replay_next]
  · simp [replay_next, hbmf, hco, heq]

/-- Witness for the amended C4 theorem at a concrete input: a `recv`
replay returns the recorded captured-exception value unchanged. -/
theorem replay_returns_result_unchanged_witness :
    replay_next defaultConfig false
        [⟨"recv", [Value.int 1024], [], Value.exc "timeout"⟩,
         ⟨"sendall", [], [], Value.none⟩]
        "recv" [Value.int 1024] []
      = (Except.ok (Value.exc "timeout"),
         [⟨"sendall", [], [], Value.none⟩]) :=
  replay_returns_result_unchanged defaultConfig false
    ⟨"recv", [Value.int 1024], [], Value.exc "timeout"⟩
    [⟨"sendall", [], [], Value.none⟩] "recv" [Value.int 1024] []
    (by decide) (Or.inr (Or.inl rfl))

/-- C1: during replay of a live call that is not a pure read
(`recv`/`makefile`), with outgoing-mismatch checking enabled and the
split-POST coalescing heuristic not applicable, `replay_next` applies
every normalization function, in configured order, to both the live
triple and the popped recorded triple; when the normalized triples differ
it raises the outgoing-traffic mismatch carrying both normalized triples
(expected, then actual) and empties the remaining playlist; when they are
equal it returns the recorded result.  With mismatch checking disabled the
same divergent call raises nothing and the recorded result is returned. -/
theorem outgoing_mismatch_check (cfg : Config) (pyLt35 : Bool)
    (r : OpRecord) (rest : List OpRecord) (name : String) (args : Args)
    (kwargs : Kwargs) (h1 : name ≠ "recv") (h2 : name ≠ "makefile")
    (hg : coalesceFires name args r.args rest kwargs = false) :
    (applyNorms cfg.outgoing_check_normalizations (r.name, r.args, r.kwargs)
        ≠ applyNorms cfg.outgoing_check_normalizations
            (name, args, kwargs) →
      replay_next { cfg with raise_outgoing_mismatch := true } pyLt35
          (r :: rest) name args kwargs
        = (Except.error (VCRError.outgoingMismatch
            (applyNorms cfg.outgoing_check_normalizations
              (r.name, r.args, r.kwargs))
            (applyNorms cfg.outgoing_check_normalizations
              (name, args, kwargs))), [])) ∧
    (applyNorms cfg.outgoing_check_normalizations (r.name, r.args, r.kwargs)
        = applyNorms cfg.outgoing_check_normalizations
            (name, args, kwargs) →
      replay_next { cfg with raise_outgoing_mismatch := true } pyLt35
          (r :: rest) name args kwargs = (Except.ok r.value, rest)) ∧
    replay_next { cfg with raise_outgoing_mismatch := false } pyLt35
        (r :: rest) name args kwargs = (Except.ok r.value, rest) := by
  have hb1 : (name == "recv") = false := by simpa using h1
  have hb2 : (name == "makefile") = false := by simpa using h2
  refine ⟨fun hne => ?_, fun heq => ?_, ?_⟩
  · simp [replay_next, hb1, hb2, hg, hne]
  · simp [replay_next, hb1, hb2, hg, heq]
  · simp [replay_next, hb2]

/-- Witness for the C1 theorem at a concrete divergent `connect` call
(empty normalization pipeline): the mismatch error carries the expected
and actual triples and the remaining playlist is discarded. -/
theorem outgoing_mismatch_check_witness :
    replay_next { defaultConfig with raise_outgoing_mismatch := true }
        false
        [⟨"connect", [Value.str "other.host"], [], Value.none⟩,
         ⟨"recv", [], [], Value.bytes [1]⟩]
        "connect" [Value.str "live.host"] []
      = (Except.error (VCRError.outgoingMismatch
          ("connect", [Value.str "other.host"], [])
          ("connect", [Value.str "live.host"], [])), []) :=
  (outgoing_mismatch_check defaultConfig false
    ⟨"connect", [Value.str "other.host"], [], Value.none⟩
    [⟨"recv", [], [], Value.bytes [1]⟩]
    "connect" [Value.str "live.host"] []
    (by decide) (by decide) (by decide)).1 (by decide)

/-- C6 counterexample: a recording-mode `setsockopt` call (here
`setsockopt(6, 1, 1)`, i.e. `TCP_NODELAY`) is performed against the real
socket but appends nothing to the playlist (core.py lines 439-443 bypass
`_exec`), so it is not captured as an operation record. -/
theorem setsockopt_not_recorded :
    (socketCallRecording [] SockMethod.setsockopt
        [Value.int 6, Value.int 1, Value.int 1] [] Value.none).1
      = [] := rfl

/-- C6 amended: in recording mode every `_exec`-routed capability
(`connect`, `send`, `sendall`, `recv`, `makefile`, `getsockopt`,
`gettimeout`, `detach`, `getpeercert`, and address resolution via
`getaddrinfo`) is performed for real, captured as
`(name, args, kwargs, result)` appended to the playlist, and the real
result is returned; `setsockopt`, `settimeout`, `setblocking`, `close`
and `fileno` perform the real call but append no record.  A whole
sequence of recording-mode calls appends exactly the records of its
`_exec`-routed calls, in the order the calls occurred. -/
theorem recording_appends_in_call_order (playlist : List OpRecord)
    (m : SockMethod) (args : Args) (kwargs : Kwargs) (rv : Value)
    (calls : List CallDesc) (h : methodRecords m = true) :
    socketCallRecording playlist m args kwargs rv
      = (playlist ++ [⟨methodName m, args, kwargs, rv⟩], rv) ∧
    runRecording playlist calls = playlist ++ calls.filterMap recordOf := by
  constructor
  · simp [socketCallRecording, h]
  · induction calls generalizing playlist with
    | nil => simp [runRecording]
    | cons c cs ih =>
      simp only [runRecording, List.filterMap_cons, socketCallRecording,
        recordOf]
      by_cases hc : methodRecords c.method = true
      · simp [hc, ih]
      · simp only [Bool.not_eq_true] at hc
        simp [hc, ih]

/-- Witness for the amended C6 theorem: a recording-mode `connect`
appends its record, and a concrete three-call sequence
(`connect`, `setsockopt`, `sendall`) leaves exactly the `connect` and
`sendall` records, in call order. -/
theorem recording_appends_in_call_order_witness :
    methodRecords SockMethod.connect = true ∧
    socketCallRecording [] SockMethod.connect [Value.str "h"] []
        Value.none
      = ([⟨"connect", [Value.str "h"], [], Value.none⟩], Value.none) ∧
    runRecording []
        [⟨SockMethod.connect, [Value.str "h"], [], Value.none⟩,
         ⟨SockMethod.setsockopt, [Value.int 6], [], Value.none⟩,
         ⟨SockMethod.sendall, [Value.bytes [71]], [], Value.none⟩]
      = [⟨"connect", [Value.str "h"], [], Value.none⟩,
         ⟨"sendall", [Value.bytes [71]], [], Value.none⟩] := by
  have h := recording_appends_in_call_order []
    SockMethod.connect [Value.str "h"] [] Value.none
    [⟨SockMethod.connect, [Value.str "h"], [], Value.none⟩,
     ⟨SockMethod.setsockopt, [Value.int 6], [], Value.none⟩,
     ⟨SockMethod.sendall, [Value.bytes [71]], [], Value.none⟩]
    (by decide)
  exact ⟨by decide, h.1, h.2⟩

/-- Frame lemma: an operation applied at index `j` leaves the buffer at
any other index `i` untouched. -/
theorem bioApply_frame (store : BIOStore) (i j : Nat) (op : BIOOp)
    (hij : i ≠ j) : (bioApply store j op)[i]? = store[i]? := by
  unfold bioApply
  cases hj : store[j]? with
  | none => rfl
  | some b =>
    cases op <;> simp [List.getElem?_set_ne (Ne.symm hij)]

/-- Frame lemma for a sequence of operations at index `j`. -/
theorem bioApplyAll_frame (store : BIOStore) (i j : Nat) (ops : List BIOOp)
    (hij : i ≠ j) : (bioApplyAll store j ops)[i]? = store[i]? := by
  induction ops generalizing store with
  | nil => rfl
  | cons op ops ih =>
    rw [bioApplyAll, ih, bioApply_frame store i j op hij]

/-- C9: after the streaming capture hands off (`finalizeStream`), the
buffer recorded on the playlist and the buffer returned to the caller are
distinct objects with equal contents (the rewound `temp`), the appended
record refers to the recorded buffer, and any sequence of caller reads or
closes on the returned buffer leaves the recorded buffer exactly as it
was. -/
theorem stream_copy_protects_recorded_buffer (store : BIOStore)
    (playlist : List OpRecord) (name : String) (args : Args)
    (kwargs : Kwargs) (temp : BytesIOObj) (ops : List BIOOp) :
    (finalizeStream store playlist name args kwargs temp).2.2.1
      ≠ (finalizeStream store playlist name args kwargs temp).2.2.2 ∧
    (finalizeStream store playlist name args kwargs temp).1[
        (finalizeStream store playlist name args kwargs temp).2.2.1]?
      = some { temp with pos := 0 } ∧
    (finalizeStream store playlist name args kwargs temp).1[
        (finalizeStream store playlist name args kwargs temp).2.2.2]?
      = some { temp with pos := 0 } ∧
    (finalizeStream store playlist name args kwargs temp).2.1
      = playlist ++
        [⟨name, args, kwargs, Value.bio store.length⟩] ∧
    (bioApplyAll (finalizeStream store playlist name args kwargs temp).1
        (finalizeStream store playlist name args kwargs temp).2.2.2 ops)[
        (finalizeStream store playlist name args kwargs temp).2.2.1]?
      = some { temp with pos := 0 } := by
  have hlen : store.length ≤ store.length := le_refl _
  have hlen1 : store.length ≤ store.length + 1 := Nat.le_succ _
  have hrec : (store ++ [{ temp with pos := 0 }, { temp with pos := 0 }])[
      store.length]? = some { temp with pos := 0 } := by
    rw [List.getElem?_append_right hlen]
    simp
  have hret : (store ++ [{ temp with pos := 0 }, { temp with pos := 0 }])[
      store.length + 1]? = some { temp with pos := 0 } := by
    rw [List.getElem?_append_right hlen1]
    simp
  refine ⟨by simp [finalizeStream], hrec, hret, rfl, ?_⟩
  rw [bioApplyAll_frame _ _ _ _ (by simp [finalizeStream])]
  exact hrec

/-- C2: mode selection in `_vcr_inner` (Python 3), evaluated once per
invocation: a set decorator- or system-level `disabled` flag runs the
body with no interception and no error; otherwise, when playback is not
forced and the tape file is missing or an overwrite is forced, the run is
in recording mode with interception installed; otherwise the run is in
playback mode, and a missing tape file yields the missing-tape error with
the body never executed. -/
theorem mode_selection_policy (decDisabled decOverwrite decPlaybackOnly : Bool)
    (cfg : Config) (tapeExists : Bool) (storedFp : String)
    (lines : List String) (py2 : Bool) (hpy : py2 = false) :
    ((decDisabled || cfg.disabled) = true →
      vcrInner py2 decDisabled decOverwrite decPlaybackOnly cfg tapeExists
          storedFp lines
        = ⟨Mode.bypass, false, true, Option.none⟩) ∧
    ((decDisabled || cfg.disabled) = false →
      (decPlaybackOnly || cfg.playback_only) = false →
      (!tapeExists || decOverwrite || cfg.overwrite) = true →
      vcrInner py2 decDisabled decOverwrite decPlaybackOnly cfg tapeExists
          storedFp lines
        = ⟨Mode.recording, true, true, Option.none⟩) ∧
    ((decDisabled || cfg.disabled) = false →
      ((decPlaybackOnly || cfg.playback_only) = true ∨
        (tapeExists = true ∧ decOverwrite = false ∧
          cfg.overwrite = false)) →
      (vcrInner py2 decDisabled decOverwrite decPlaybackOnly cfg tapeExists
          storedFp lines).mode = Mode.playing ∧
      (tapeExists = false →
        vcrInner py2 decDisabled decOverwrite decPlaybackOnly cfg tapeExists
            storedFp lines
          = ⟨Mode.playing, true, false, some VCRError.missingTape⟩)) := by
  subst hpy
  refine ⟨fun hd => ?_, fun hd hp ho => ?_, fun hd hcase => ?_⟩
  · simp [vcrInner, hd]
  · simp [vcrInner, hd, hp, ho]
  · have hrec : (!(decPlaybackOnly || cfg.playback_only) &&
        (!tapeExists || decOverwrite || cfg.overwrite)) = false := by
      rcases hcase with hp | ⟨ht, ho1, ho2⟩
      · simp [hp]
      · simp [ht, ho1, ho2]
    constructor
    · simp only [vcrInner, hd, Bool.false_eq_true, if_false, hrec]
      split
      · rfl
      · split <;> rfl
    · intro ht
      subst ht
      have hforced : (decPlaybackOnly || cfg.playback_only) = true := by
        cases hpo : (decPlaybackOnly || cfg.playback_only) with
        | true => rfl
        | false => rw [hpo] at hrec; simp at hrec
      simp [vcrInner, hd, hforced]

/-- Witness for the C2 theorem: with nothing disabled, playback not
forced and no tape file, the run records; and with playback forced and no
tape file, the run fails with the missing-tape error before the body. -/
theorem mode_selection_policy_witness :
    vcrInner false false false false defaultConfig false "fp" []
      = ⟨Mode.recording, true, true, Option.none⟩ ∧
    vcrInner false false false true defaultConfig false "fp" []
      = ⟨Mode.playing, true, false, some VCRError.missingTape⟩ := by
  constructor
  · exact (mode_selection_policy false false false defaultConfig false "fp"
      [] false rfl).2.1 (by decide) (by decide) (by decide)
  · exact ((mode_selection_policy false false true defaultConfig false "fp"
      [] false rfl).2.2 (by decide) (Or.inl (by decide))).2 rfl

/-- C5: entering playback with `raise_if_source_code_changed` enabled, the
leading stored fingerprint of the loaded tape is compared against the
freshly computed fingerprint of the test's current source, and the run
fails with the stale-source error before the test body executes exactly
when the two differ; the computed fingerprint is the SHA-256 hex digest of
the UTF-8 encoding of the test's source lines with the single decorator
line (the first line) removed. -/
theorem stale_fingerprint_check
    (py2 decDisabled decOverwrite decPlaybackOnly : Bool) (cfg : Config)
    (storedFp : String) (lines : List String)
    (hd : (decDisabled || cfg.disabled) = false)
    (hnr : (!(decPlaybackOnly || cfg.playback_only) &&
        (decOverwrite || cfg.overwrite)) = false)
    (hs : cfg.raise_if_source_code_changed = true) :
    (((vcrInner py2 decDisabled decOverwrite decPlaybackOnly cfg true
          storedFp lines).error = some VCRError.sourceCodeChanged ∧
      (vcrInner py2 decDisabled decOverwrite decPlaybackOnly cfg true
          storedFp lines).bodyExecuted = false) ↔
      get_source_code_sha256 lines ≠ storedFp) ∧
    get_source_code_sha256 lines
      = sha256hex (utf8Encode (String.join (lines.drop 1))) := by
  refine ⟨?_, rfl⟩
  have hnr' : ¬((decPlaybackOnly = false ∧ cfg.playback_only = false) ∧
      (decOverwrite = true ∨ cfg.overwrite = true)) := by
    rintro ⟨⟨h1, h2⟩, h3⟩
    rw [h1, h2] at hnr
    rcases h3 with h3 | h3 <;> rw [h3] at hnr <;> simp at hnr
  by_cases hc : get_source_code_sha256 lines = storedFp
  · simp [vcrInner, hd, hnr', hs, hc]
  · simp [vcrInner, hd, hnr', hs, hc]

/-- Witness for the C5 theorem: forced playback of an existing tape whose
stored fingerprint is `"stale"`, for a one-line test whose own source
hash is a genuine SHA-256 digest, fails with the stale-source error
before the body runs. -/
theorem stale_fingerprint_check_witness :
    (vcrInner false false false true defaultConfig true "stale"
        ["@vcr\n", "def t():\n"]).error
      = some VCRError.sourceCodeChanged ∧
    (vcrInner false false false true defaultConfig true "stale"
        ["@vcr\n", "def t():\n"]).bodyExecuted = false :=
  ((stale_fingerprint_check false false false true defaultConfig "stale"
      ["@vcr\n", "def t():\n"] (by decide) (by decide) rfl).1).mpr
    (by decide)

/-- C7 (code bug): in the streaming-capture loop the end-marker `break`
(core.py line 400) exits only the inner `for` loop, so an observed end
marker does not terminate capture.  With `recv_endmarkers = [b'END']` and
a chunk `b'xEND'` arriving one second in, the iteration continues
(first conjunct), and the loop only stops later, via the
one-timeout-after-data rule, once no new bytes have arrived for more than
`recv_timeout` seconds (second conjunct) — not at the end-marker
observation as the claim requires. -/
theorem endmarker_never_breaks_capture :
    captureStep { defaultConfig with recv_endmarkers := [[69, 78, 68]] }
        0 [] ⟨1, ReadEvent.data [88, 69, 78, 68]⟩
      = Sum.inr (1, [88, 69, 78, 68]) ∧
    captureLoop { defaultConfig with recv_endmarkers := [[69, 78, 68]] }
        0 []
        [⟨1, ReadEvent.data [88, 69, 78, 68]⟩, ⟨3, ReadEvent.data []⟩,
         ⟨7, ReadEvent.data []⟩]
      = some (BreakReason.dataTimeout, [88, 69, 78, 68]) := by
  constructor <;> rfl

end VCR
